import Mathlib

/-!
Shallow embedding of the learning-path HTTP endpoints
(src/backend/app/api/v1/endpoints/learning_path.py).

Python dynamic values that matter to the control flow are modelled
faithfully: dict keys in `content_progress` are Python values that may be
ints or strings (`PyKey`), because the source inserts keys via
`str(content_id)` but tests membership with the integer `path_id`;
numeric progress values are modelled as rationals; `if x:` on an optional
integer is Python truthiness (absent or zero is falsy).

Storage is an explicit `DB` record; each handler takes the DB and returns
the post-call DB together with either a response or a NotFound error
(HTTP 404).  Unhandled-exception 500 paths are not modelled: the embedded
handlers are total.
-/

/-- A Python value usable as a dict key in `content_progress`: the source
inserts `str(content_id)` (a string) and tests `path_id in dict` (an int);
Python equality between an int and a str is always false, which the
derived `DecidableEq` reproduces. -/
inductive PyKey where
  | int : Int → PyKey
  | str : String → PyKey
deriving DecidableEq, Repr

/-- `app.models.user.User`, referenced only by id in this slice. -/
structure User where
  id : Int
deriving DecidableEq, Repr

/-- `app.models.content.LearningContent`: the fields this endpoint reads. -/
structure LearningContent where
  id : Int
  title : String
  description : String
  content_type : String
  subject : String
  difficulty_level : Int
deriving DecidableEq, Repr

/-- The free-form `path_metadata` map built by `create_learning_path`. -/
structure PathMetadata where
  goals : List String
  prerequisites : List String
  difficulty : String
deriving DecidableEq, Repr

/-- `app.models.learning_path.LearningPath`: the fields this endpoint reads.
Timestamps are opaque strings. -/
structure LearningPath where
  id : Int
  title : String
  description : String
  subject : String
  difficulty_level : Int
  estimated_hours : Option Int
  created_at : String
  path_metadata : PathMetadata
  contents : List LearningContent
deriving DecidableEq, Repr

/-- `app.models.learning_path.PathEnrollment`.  `content_progress` is the
JSON map from content-id keys to numeric progress, kept as an ordered
association list the way a Python dict is ordered.  `enrolled_at` and
`last_activity_at` are the timestamp columns of the model. -/
structure PathEnrollment where
  id : Int
  user_id : Int
  path_id : Int
  progress : ℚ
  content_progress : List (PyKey × ℚ)
  personalization_settings : List (String × String)
  enrolled_at : String
  last_activity_at : String
deriving DecidableEq, Repr

/-- The relational store seen through `db.query(...)`: each table is a list
in storage-default order; `next_enrollment_id` models the autoincrement
primary key. -/
structure DB where
  users : List User
  paths : List LearningPath
  contents : List LearningContent
  enrollments : List PathEnrollment
  next_enrollment_id : Int
deriving DecidableEq, Repr

/-- `HTTPException(status_code=404, ...)`: the only modelled failure. -/
inductive ApiError where
  | notFound : String → ApiError
deriving DecidableEq, Repr

/-- `db.query(User).filter(User.id == user_id).first()` -/
def findUser (db : DB) (user_id : Int) : Option User :=
  db.users.find? (fun u => u.id == user_id)

/-- `db.query(LearningPath).filter(LearningPath.id == path_id).first()` -/
def findPath (db : DB) (path_id : Int) : Option LearningPath :=
  db.paths.find? (fun p => p.id == path_id)

/-- `db.query(LearningContent).filter(LearningContent.id == content_id).first()` -/
def findContent (db : DB) (content_id : Int) : Option LearningContent :=
  db.contents.find? (fun c => c.id == content_id)

/-- `db.query(PathEnrollment).filter(user_id == .., path_id == ..).first()` -/
def findEnrollment (db : DB) (user_id path_id : Int) : Option PathEnrollment :=
  db.enrollments.find? (fun e => e.user_id == user_id && e.path_id == path_id)

/-- Python dict assignment `d[k] = v`: replace in place if the key exists,
otherwise append (insertion order). -/
def dictSet (d : List (PyKey × ℚ)) (k : PyKey) (v : ℚ) : List (PyKey × ℚ) :=
  if d.any (fun kv => kv.1 == k) then
    d.map (fun kv => if kv.1 == k then (k, v) else kv)
  else d ++ [(k, v)]

/-- Python `k in d` on a dict. -/
def dictHasKey (d : List (PyKey × ℚ)) (k : PyKey) : Bool :=
  d.any (fun kv => kv.1 == k)

/-- Python `sum(d.values())`. -/
def dictValuesSum (d : List (PyKey × ℚ)) : ℚ :=
  (d.map (fun kv => kv.2)).sum

/-- The JSON body returned by both branches of `enroll_in_learning_path`. -/
structure EnrollmentResponse where
  id : Int
  user_id : Int
  path_id : Int
  progress : ℚ
  enrolled_at : String
  content_progress : List (PyKey × ℚ)
deriving DecidableEq, Repr

/-- The response dict of `enroll_in_learning_path` (the `or {}` on
`content_progress` is the identity here because the embedded column is
never NULL). -/
def enrollmentResponse (e : PathEnrollment) : EnrollmentResponse :=
  { id := e.id
  , user_id := e.user_id
  , path_id := e.path_id
  , progress := e.progress
  , enrolled_at := e.enrolled_at
  , content_progress := e.content_progress }

/-- `POST /paths/enroll` (`enroll_in_learning_path`).  `now` stands for the
server-assigned timestamp defaults of the PathEnrollment model (the model
file is outside this slice; the spec's data model gives the enrollment an
`enrolled_at` and `last_activity_at` timestamp set at creation). -/
def enroll_in_learning_path (db : DB) (user_id path_id : Int)
    (personalization_settings : List (String × String)) (now : String) :
    DB × Except ApiError EnrollmentResponse :=
  match findUser db user_id with
  | none => (db, .error (.notFound "user not found"))
  | some _ =>
    match findPath db path_id with
    | none => (db, .error (.notFound "path not found"))
    | some _ =>
      match findEnrollment db user_id path_id with
      | some existing_enrollment => (db, .ok (enrollmentResponse existing_enrollment))
      | none =>
        let db_enrollment : PathEnrollment :=
          { id := db.next_enrollment_id
          , user_id := user_id
          , path_id := path_id
          , progress := 0
          , content_progress := []
          , personalization_settings := personalization_settings
          , enrolled_at := now
          , last_activity_at := now }
        ( { db with
              enrollments := db.enrollments ++ [db_enrollment]
            , next_enrollment_id := db.next_enrollment_id + 1 }
        , .ok (enrollmentResponse db_enrollment) )

/-- The `user_progress` sub-object of the path-detail response. -/
structure UserProgress where
  overall_progress : ℚ
  content_progress : List (PyKey × ℚ)
  enrolled_at : String
deriving DecidableEq, Repr

/-- The JSON body of `get_learning_path`.  The real-path branch emits no
`created_at` key, the mock branch does, hence the `Option`. -/
structure PathDetail where
  id : Int
  title : String
  description : String
  subject : String
  difficulty_level : Int
  estimated_hours : Option Int
  created_at : Option String
  path_metadata : PathMetadata
  contents : List LearningContent
  user_progress : Option UserProgress
deriving DecidableEq, Repr

/-- The deterministic mock path `get_learning_path` builds when the id is
absent from storage, transcribed literally from the source, including its
`if user_id` truthiness test for `user_progress`. -/
def mockPath (path_id : Int) (user_id : Option Int) : PathDetail :=
  { id := path_id
  , title :=
      if path_id = 1 then "Python编程基础"
      else if path_id = 2 then "数据分析入门"
      else "测试学习路径 " ++ toString path_id
  , description :=
      if path_id = 1 then "从零开始学习Python编程"
      else if path_id = 2 then "掌握数据分析基础技能"
      else "这是一个测试学习路径 " ++ toString path_id
  , subject :=
      if path_id = 1 then "programming"
      else if path_id = 2 then "data_science"
      else "other"
  , difficulty_level := 2
  , estimated_hours := some 25
  , created_at := some "2025-03-28T20:00:00"
  , path_metadata :=
      { goals := ["掌握基础语法", "理解核心概念"]
      , prerequisites := []
      , difficulty := "beginner" }
  , contents :=
      [ { id := 101
        , title :=
            if path_id = 1 then "Python基础语法"
            else if path_id = 2 then "数据分析概述"
            else "基础概念"
        , description :=
            if path_id = 1 then "学习Python的基本语法和数据类型"
            else if path_id = 2 then "了解数据分析的基本概念和流程"
            else "学习基础知识"
        , content_type := "video"
        , subject :=
            if path_id = 1 then "programming"
            else if path_id = 2 then "data_science"
            else "other"
        , difficulty_level := 1 }
      , { id := 102
        , title :=
            if path_id = 1 then "Python函数和模块"
            else if path_id = 2 then "数据清洗与预处理"
            else "进阶知识"
        , description :=
            if path_id = 1 then "学习如何定义和使用Python函数和模块"
            else if path_id = 2 then "学习数据清洗和预处理的基本方法"
            else "深入学习核心概念"
        , content_type := "interactive"
        , subject :=
            if path_id = 1 then "programming"
            else if path_id = 2 then "data_science"
            else "other"
        , difficulty_level := 2 }
      ]
  , user_progress :=
      match user_id with
      | some uid =>
        if uid = 0 then none
        else some
          { overall_progress := 0
          , content_progress := []
          , enrolled_at := "2025-03-28T20:00:00" }
      | none => none }

/-- `GET /paths/\x7bpath_id\x7d` (`get_learning_path`).  Missing path falls
back to the mock; otherwise the stored path is assembled, with the
caller's progress snapshot when a truthy `user_id` is given. -/
def get_learning_path (db : DB) (path_id : Int) (user_id : Option Int) :
    PathDetail :=
  match findPath db path_id with
  | none => mockPath path_id user_id
  | some path =>
    let user_progress : Option UserProgress :=
      match user_id with
      | some uid =>
        if uid = 0 then none
        else
          match findEnrollment db uid path_id with
          | some enrollment =>
            some { overall_progress := enrollment.progress
                 , content_progress := enrollment.content_progress
                 , enrolled_at := enrollment.enrolled_at }
          | none => none
      | none => none
    { id := path.id
    , title := path.title
    , description := path.description
    , subject := path.subject
    , difficulty_level := path.difficulty_level
    , estimated_hours := path.estimated_hours
    , created_at := none
    , path_metadata := path.path_metadata
    , contents := path.contents
    , user_progress := user_progress }

/-- The JSON body of `update_path_progress`. -/
structure ProgressResponse where
  id : Int
  user_id : Int
  path_id : Int
  progress : ℚ
  content_progress : List (PyKey × ℚ)
  last_activity_at : String
deriving DecidableEq, Repr

/-- The response dict of `update_path_progress`. -/
def progressResponse (e : PathEnrollment) : ProgressResponse :=
  { id := e.id
  , user_id := e.user_id
  , path_id := e.path_id
  , progress := e.progress
  , content_progress := e.content_progress
  , last_activity_at := e.last_activity_at }

/-- `POST /paths/\x7bpath_id\x7d/progress` (`update_path_progress`).
The Python guard `if content_id:` is truthiness: `None` and `0` both skip
the whole update branch.  Inside the branch the recompute of the
aggregate is guarded by `if path_id in enrollment.content_progress:`,
which compares the integer `path_id` against the dict keys — keys that
are always the strings `str(content_id)` — exactly as transcribed here.
Modelled from the spec: the `last_activity_at` update on commit comes from
the PathEnrollment model's timestamp column (the model file is outside
this slice; the spec's Progress Tracker says the call updates
`last_activity_at`), represented by setting the field to `now`. -/
def update_path_progress (db : DB) (path_id user_id : Int)
    (content_id : Option Int) (progress : ℚ) (now : String) :
    DB × Except ApiError ProgressResponse :=
  match findEnrollment db user_id path_id with
  | none => (db, .error (.notFound "enrollment not found"))
  | some enrollment =>
    match content_id with
    | some cid =>
      if cid = 0 then (db, .ok (progressResponse enrollment))
      else
        match findContent db cid with
        | none => (db, .error (.notFound "content not found"))
        | some _ =>
          let content_progress :=
            dictSet enrollment.content_progress (PyKey.str (toString cid)) progress
          let newProgress :=
            if dictHasKey content_progress (PyKey.int path_id) then
              min 100 (dictValuesSum content_progress / (content_progress.length : ℚ))
            else enrollment.progress
          let updated : PathEnrollment :=
            { enrollment with
                content_progress := content_progress
              , progress := newProgress
              , last_activity_at := now }
          ( { db with
                enrollments :=
                  db.enrollments.map (fun e => if e.id == enrollment.id then updated else e) }
          , .ok (progressResponse updated) )
    | none => (db, .ok (progressResponse enrollment))

/-- One entry of the `GET /paths/enrolled` response. -/
structure EnrolledPathEntry where
  id : Int
  title : String
  description : String
  subject : String
  difficulty_level : Int
  estimated_hours : Option Int
  created_at : String
  content_count : Nat
  progress : ℚ
deriving DecidableEq, Repr

/-- `GET /paths/enrolled` (`get_enrolled_learning_paths`): one entry per
enrollment of the user whose referenced path is found, in enrollment
order; enrollments whose path is missing are skipped. -/
def get_enrolled_learning_paths (db : DB) (user_id : Int) :
    List EnrolledPathEntry :=
  let enrollments := db.enrollments.filter (fun e => e.user_id == user_id)
  enrollments.filterMap (fun enrollment =>
    (findPath db enrollment.path_id).map (fun path =>
      { id := path.id
      , title := path.title
      , description := path.description
      , subject := path.subject
      , difficulty_level := path.difficulty_level
      , estimated_hours := path.estimated_hours
      , created_at := path.created_at
      , content_count := path.contents.length
      , progress := enrollment.progress }))

/-- One entry of the `GET /paths/recommended` response. -/
structure RecommendedPathEntry where
  id : Int
  title : String
  description : String
  subject : String
  difficulty_level : Int
  estimated_hours : Option Int
  created_at : String
  content_count : Nat
deriving DecidableEq, Repr

/-- `GET /paths/recommended` (`get_recommended_learning_paths`): 404 when
the user is missing; otherwise at most 5 paths in storage order, filtered
by `notin_(enrolled_path_ids)` only when that list is non-empty. -/
def get_recommended_learning_paths (db : DB) (user_id : Int) :
    Except ApiError (List RecommendedPathEntry) :=
  match findUser db user_id with
  | none => .error (.notFound "user not found")
  | some _ =>
    let enrolled_path_ids :=
      (db.enrollments.filter (fun e => e.user_id == user_id)).map
        (fun e => e.path_id)
    let query :=
      if enrolled_path_ids.isEmpty then db.paths
      else db.paths.filter (fun p => !(enrolled_path_ids.contains p.id))
    let paths := query.take 5
    .ok (paths.map (fun path =>
      { id := path.id
      , title := path.title
      , description := path.description
      , subject := path.subject
      , difficulty_level := path.difficulty_level
      , estimated_hours := path.estimated_hours
      , created_at := path.created_at
      , content_count := path.contents.length }))

/-! ## Concrete fixtures used by the counterexample and witness theorems -/

/-- A one-user, one-path, one-content, one-enrollment store: user 1 is
enrolled in path 1 with no progress yet, and content 2 exists. -/
def sampleContent : LearningContent :=
  { id := 2, title := "intro", description := "", content_type := "video",
    subject := "programming", difficulty_level := 1 }

def samplePath : LearningPath :=
  { id := 1, title := "path one", description := "", subject := "programming",
    difficulty_level := 2, estimated_hours := none, created_at := "t0",
    path_metadata := { goals := [], prerequisites := [], difficulty := "beginner" },
    contents := [sampleContent] }

def sampleEnrollment : PathEnrollment :=
  { id := 1, user_id := 1, path_id := 1, progress := 0, content_progress := [],
    personalization_settings := [], enrolled_at := "t0", last_activity_at := "t0" }

def sampleDB : DB :=
  { users := [{ id := 1 }], paths := [samplePath], contents := [sampleContent],
    enrollments := [sampleEnrollment], next_enrollment_id := 2 }

/-- Same store without the enrollment row. -/
def sampleDBNoEnrollment : DB :=
  { sampleDB with enrollments := [] }

/-- The empty store. -/
def emptyDB : DB :=
  { users := [], paths := [], contents := [], enrollments := [],
    next_enrollment_id := 1 }

/-- C1: the claim says that after `update_path_progress` sets
`content_progress[contentId] = progress` the stored aggregate equals
`min(100, mean(content_progress.values()))`.  On the code this fails: with
user 1 enrolled in path 1 at progress 0, updating content 2 to 40 stores
`content_progress = \x7b"2": 40\x7d` but leaves the aggregate at 0, while
the claimed value is `min(100, 40/1) = 40`.  The recompute is guarded by
`if path_id in enrollment.content_progress`, and the integer `path_id`
is never equal to any of the string keys `str(content_id)`. -/
theorem C1_aggregate_not_recomputed :
    ((update_path_progress sampleDB 1 1 (some 2) 40 "t1").2.toOption.map
      (fun r => (r.progress, r.content_progress)))
      = some ((0 : ℚ), [(PyKey.str "2", (40 : ℚ))]) ∧
    min (100 : ℚ) ((40 : ℚ) / (1 : ℚ)) = 40 ∧ ((0 : ℚ) = (40 : ℚ) → False) := by
  refine ⟨by decide, by norm_num, by norm_num⟩

/-- C8: with an existing enrollment, calling `update_path_progress` with no
content id leaves the store exactly as it was and returns the current
enrollment state. -/
theorem C8_no_content_id_is_noop_read (db : DB) (path_id user_id : Int)
    (progress : ℚ) (now : String)
    (he : (findEnrollment db user_id path_id).isSome = true) :
    (update_path_progress db path_id user_id none progress now).1 = db ∧
    ∃ e, findEnrollment db user_id path_id = some e ∧
      (update_path_progress db path_id user_id none progress now).2 =
        .ok (progressResponse e) := by
  obtain ⟨e, he'⟩ := Option.isSome_iff_exists.mp he
  refine ⟨?_, e, he', ?_⟩ <;> simp [update_path_progress, he']

theorem C8_no_content_id_is_noop_read_witness :
    (update_path_progress sampleDB 1 1 none 40 "t1").1 = sampleDB ∧
    ∃ e, findEnrollment sampleDB 1 1 = some e ∧
      (update_path_progress sampleDB 1 1 none 40 "t1").2 =
        .ok (progressResponse e) :=
  C8_no_content_id_is_noop_read sampleDB 1 1 40 "t1" (by decide)

/-- C9: with an existing enrollment, `content_id = 0` is treated exactly
like an absent content id: the call equals the no-content-id call, the
store is unchanged, no content lookup failure can occur, and the current
enrollment state is returned — the code branches on the truthiness of
`content_id`. -/
theorem C9_zero_content_id_like_none (db : DB) (path_id user_id : Int)
    (progress : ℚ) (now : String)
    (he : (findEnrollment db user_id path_id).isSome = true) :
    update_path_progress db path_id user_id (some 0) progress now =
      update_path_progress db path_id user_id none progress now ∧
    (update_path_progress db path_id user_id (some 0) progress now).1 = db ∧
    ∃ e, findEnrollment db user_id path_id = some e ∧
      (update_path_progress db path_id user_id (some 0) progress now).2 =
        .ok (progressResponse e) := by
  obtain ⟨e, he'⟩ := Option.isSome_iff_exists.mp he
  refine ⟨?_, ?_, e, he', ?_⟩ <;> simp [update_path_progress, he']

theorem C9_zero_content_id_like_none_witness :
    update_path_progress sampleDB 1 1 (some 0) 40 "t1" =
      update_path_progress sampleDB 1 1 none 40 "t1" ∧
    (update_path_progress sampleDB 1 1 (some 0) 40 "t1").1 = sampleDB ∧
    ∃ e, findEnrollment sampleDB 1 1 = some e ∧
      (update_path_progress sampleDB 1 1 (some 0) 40 "t1").2 =
        .ok (progressResponse e) :=
  C9_zero_content_id_like_none sampleDB 1 1 40 "t1" (by decide)

/-- C2: when user and path both exist, enrolling is idempotent — an
existing enrollment for (user, path) is returned as-is (same id, progress
and content_progress) with the store untouched; otherwise exactly one new
enrollment is appended, with progress 0, empty content_progress and the
supplied personalization settings. -/
theorem C2_enroll_idempotent (db : DB) (user_id path_id : Int)
    (ps : List (String × String)) (now : String)
    (hu : (findUser db user_id).isSome = true)
    (hp : (findPath db path_id).isSome = true) :
    (∀ e, findEnrollment db user_id path_id = some e →
      enroll_in_learning_path db user_id path_id ps now =
        (db, .ok (enrollmentResponse e))) ∧
    (findEnrollment db user_id path_id = none →
      ∃ enew, enroll_in_learning_path db user_id path_id ps now =
          ( { db with
                enrollments := db.enrollments ++ [enew],
                next_enrollment_id := db.next_enrollment_id + 1 },
            .ok (enrollmentResponse enew) ) ∧
        enew.user_id = user_id ∧ enew.path_id = path_id ∧
        enew.progress = 0 ∧ enew.content_progress = [] ∧
        enew.personalization_settings = ps) := by
  obtain ⟨u, hu'⟩ := Option.isSome_iff_exists.mp hu
  obtain ⟨p, hp'⟩ := Option.isSome_iff_exists.mp hp
  constructor
  · intro e he
    simp [enroll_in_learning_path, hu', hp', he]
  · intro he
    refine ⟨{ id := db.next_enrollment_id, user_id := user_id, path_id := path_id,
              progress := 0, content_progress := [], personalization_settings := ps,
              enrolled_at := now, last_activity_at := now }, ?_, rfl, rfl, rfl, rfl, rfl⟩
    simp [enroll_in_learning_path, hu', hp', he]

theorem C2_enroll_idempotent_witness :
    findEnrollment sampleDBNoEnrollment 1 1 = none ∧
    (∃ enew, enroll_in_learning_path sampleDBNoEnrollment 1 1 [] "t1" =
        ( { sampleDBNoEnrollment with
              enrollments := sampleDBNoEnrollment.enrollments ++ [enew],
              next_enrollment_id := sampleDBNoEnrollment.next_enrollment_id + 1 },
          .ok (enrollmentResponse enew) ) ∧
      enew.user_id = 1 ∧ enew.path_id = 1 ∧
      enew.progress = 0 ∧ enew.content_progress = [] ∧
      enew.personalization_settings = []) :=
  ⟨by decide,
   (C2_enroll_idempotent sampleDBNoEnrollment 1 1 [] "t1"
      (by decide) (by decide)).2 (by decide)⟩

/-- C3: `update_path_progress` fails with NotFound when no enrollment
exists for (user, path); and when the enrollment exists but the supplied
(truthy) content id matches no content, it fails with NotFound leaving
the whole store — in particular the enrollment's progress and
content_progress — exactly as it was. -/
theorem C3_update_progress_not_found (db : DB) (path_id user_id : Int)
    (content_id : Option Int) (progress : ℚ) (now : String) :
    (findEnrollment db user_id path_id = none →
      update_path_progress db path_id user_id content_id progress now =
        (db, .error (.notFound "enrollment not found"))) ∧
    (∀ cid, content_id = some cid → ¬ cid = 0 →
      (findEnrollment db user_id path_id).isSome = true →
      findContent db cid = none →
      update_path_progress db path_id user_id content_id progress now =
        (db, .error (.notFound "content not found"))) := by
  constructor
  · intro he
    simp [update_path_progress, he]
  · intro cid hcid h0 he hc
    obtain ⟨e, he'⟩ := Option.isSome_iff_exists.mp he
    subst hcid
    simp [update_path_progress, he', h0, hc]

theorem C3_update_progress_not_found_witness :
    (update_path_progress sampleDBNoEnrollment 1 1 (some 2) 40 "t1" =
      (sampleDBNoEnrollment, .error (.notFound "enrollment not found"))) ∧
    (update_path_progress sampleDB 1 1 (some 3) 40 "t1" =
      (sampleDB, .error (.notFound "content not found"))) :=
  ⟨(C3_update_progress_not_found sampleDBNoEnrollment 1 1 (some 2) 40 "t1").1
      (by decide),
   (C3_update_progress_not_found sampleDB 1 1 (some 3) 40 "t1").2 3 rfl
      (by decide) (by decide) (by decide)⟩

/-- C4: when the path id is absent from storage, `get_learning_path`
returns the deterministic mock instead of an error; its id field equals
the requested id, id 1 gives the "programming" mock with its two fixed
content stubs, id 2 gives the "data_science" mock, and any other id a
generic placeholder with subject "other". -/
theorem C4_missing_path_returns_mock (db : DB) (path_id : Int)
    (user_id : Option Int) (h : findPath db path_id = none) :
    get_learning_path db path_id user_id = mockPath path_id user_id ∧
    (get_learning_path db path_id user_id).id = path_id ∧
    (path_id = 1 →
      (get_learning_path db path_id user_id).subject = "programming" ∧
      (get_learning_path db path_id user_id).contents =
        [ { id := 101, title := "Python基础语法",
            description := "学习Python的基本语法和数据类型",
            content_type := "video", subject := "programming",
            difficulty_level := 1 },
          { id := 102, title := "Python函数和模块",
            description := "学习如何定义和使用Python函数和模块",
            content_type := "interactive", subject := "programming",
            difficulty_level := 2 } ]) ∧
    (path_id = 2 →
      (get_learning_path db path_id user_id).subject = "data_science") ∧
    (¬ path_id = 1 → ¬ path_id = 2 →
      (get_learning_path db path_id user_id).subject = "other") := by
  have hm : get_learning_path db path_id user_id = mockPath path_id user_id := by
    simp [get_learning_path, h]
  refine ⟨hm, ?_, ?_, ?_, ?_⟩
  · rw [hm]; rfl
  · intro h1; subst h1; rw [hm]; exact ⟨rfl, rfl⟩
  · intro h2; subst h2; rw [hm]; rfl
  · intro h1 h2; rw [hm]; simp [mockPath, h1, h2]

theorem C4_missing_path_returns_mock_witness :
    (get_learning_path emptyDB 999 none = mockPath 999 none ∧
      (get_learning_path emptyDB 999 none).id = 999 ∧
      (get_learning_path emptyDB 999 none).subject = "other") ∧
    (get_learning_path emptyDB 1 none).subject = "programming" :=
  ⟨⟨(C4_missing_path_returns_mock emptyDB 999 none (by decide)).1,
    (C4_missing_path_returns_mock emptyDB 999 none (by decide)).2.1,
    (C4_missing_path_returns_mock emptyDB 999 none (by decide)).2.2.2.2
      (by decide) (by decide)⟩,
   ((C4_missing_path_returns_mock emptyDB 1 none (by decide)).2.2.1 rfl).1⟩

/-- C5: recommendations fail with NotFound for a missing user; for an
existing user the list has at most 5 entries and contains no path the
user is enrolled in. -/
theorem C5_recommend_excludes_enrolled (db : DB) (user_id : Int) :
    (findUser db user_id = none →
      get_recommended_learning_paths db user_id =
        .error (.notFound "user not found")) ∧
    ((findUser db user_id).isSome = true →
      ∃ l, get_recommended_learning_paths db user_id = .ok l ∧
        l.length ≤ 5 ∧
        ∀ entry ∈ l, ∀ e ∈ db.enrollments, e.user_id = user_id →
          ¬ entry.id = e.path_id) := by
  constructor
  · intro hu
    simp [get_recommended_learning_paths, hu]
  · intro hu
    obtain ⟨u, hu'⟩ := Option.isSome_iff_exists.mp hu
    simp only [get_recommended_learning_paths, hu']
    refine ⟨_, rfl, ?_, ?_⟩
    · simp only [List.length_map, List.length_take]
      omega
    · intro entry hentry e he heuid
      rw [List.mem_map] at hentry
      obtain ⟨p, hp, rfl⟩ := hentry
      have hpq := List.take_subset 5 _ hp
      have hef : e ∈ db.enrollments.filter (fun x => x.user_id == user_id) := by
        rw [List.mem_filter]
        exact ⟨he, by simp [heuid]⟩
      have hid : e.path_id ∈
          (db.enrollments.filter (fun x => x.user_id == user_id)).map
            (fun x => x.path_id) :=
        List.mem_map.mpr ⟨e, hef, rfl⟩
      by_cases hq :
          ((db.enrollments.filter (fun x => x.user_id == user_id)).map
            (fun x => x.path_id)).isEmpty
      · rw [List.isEmpty_iff] at hq
        rw [hq] at hid
        exact absurd hid (List.not_mem_nil _)
      · rw [if_neg hq] at hpq
        rw [List.mem_filter] at hpq
        have hnc := hpq.2
        simp only [Bool.not_eq_true'] at hnc
        intro hcontra
        have hcid : p.id = e.path_id := hcontra
        have : ((db.enrollments.filter (fun x => x.user_id == user_id)).map
            (fun x => x.path_id)).contains p.id = true := by
          rw [List.contains_iff_exists_mem_beq]
          exact ⟨e.path_id, hid, by simp [hcid]⟩
        rw [this] at hnc
        simp at hnc

theorem C5_recommend_excludes_enrolled_witness :
    ∃ l, get_recommended_learning_paths sampleDB 1 = .ok l ∧
      l.length ≤ 5 ∧
      ∀ entry ∈ l, ∀ e ∈ sampleDB.enrollments, e.user_id = 1 →
        ¬ entry.id = e.path_id :=
  (C5_recommend_excludes_enrolled sampleDB 1).2 (by decide)

/-- Helper: a `filterMap` whose body is `Option.map` over a lookup keeps
exactly the elements whose lookup succeeds. -/
theorem length_filterMap_map_lookup {α β γ : Type} (l : List α)
    (f : α → Option β) (g : α → β → γ) :
    (l.filterMap (fun a => (f a).map (g a))).length =
      (l.filter (fun a => (f a).isSome)).length := by
  induction l with
  | nil => rfl
  | cons a t ih =>
    cases h : f a with
    | none => simp [List.filterMap_cons, List.filter_cons, h, ih]
    | some b => simp [List.filterMap_cons, List.filter_cons, h, ih]

/-- C6: `get_enrolled_learning_paths` returns one entry per enrollment of
the user whose referenced path exists (annotated with the path's content
count and the enrollment's aggregate progress), silently skips
enrollments whose path is missing, and returns the empty list — not an
error — when the user has no enrollments. -/
theorem C6_list_enrolled_skips_missing (db : DB) (user_id : Int) :
    (get_enrolled_learning_paths db user_id).length =
      ((db.enrollments.filter (fun e => e.user_id == user_id)).filter
        (fun e => (findPath db e.path_id).isSome)).length ∧
    (∀ entry ∈ get_enrolled_learning_paths db user_id,
      ∃ e, e ∈ db.enrollments ∧ e.user_id = user_id ∧
        ∃ p, findPath db e.path_id = some p ∧
          entry.id = p.id ∧ entry.content_count = p.contents.length ∧
          entry.progress = e.progress) ∧
    (db.enrollments.filter (fun e => e.user_id == user_id) = [] →
      get_enrolled_learning_paths db user_id = []) := by
  refine ⟨?_, ?_, ?_⟩
  · simp only [get_enrolled_learning_paths]
    exact length_filterMap_map_lookup _ _ _
  · intro entry hentry
    simp only [get_enrolled_learning_paths] at hentry
    rw [List.mem_filterMap] at hentry
    obtain ⟨e, hef, hfe⟩ := hentry
    rw [List.mem_filter] at hef
    obtain ⟨p, hp, hgp⟩ := Option.map_eq_some'.mp hfe
    refine ⟨e, hef.1, by simpa using hef.2, p, hp, ?_, ?_, ?_⟩ <;>
      rw [← hgp]
  · intro h
    simp [get_enrolled_learning_paths, h]

theorem C6_list_enrolled_skips_missing_witness :
    (get_enrolled_learning_paths sampleDB 1).length =
      ((sampleDB.enrollments.filter (fun e => e.user_id == 1)).filter
        (fun e => (findPath sampleDB e.path_id).isSome)).length ∧
    get_enrolled_learning_paths emptyDB 1 = [] :=
  ⟨(C6_list_enrolled_skips_missing sampleDB 1).1,
   (C6_list_enrolled_skips_missing emptyDB 1).2.2 (by decide)⟩

/-- Helper: replacing, by id, the enrollment that `find?` located with an
updated row that still carries the same user and path ids makes the same
`find?` return the updated row. -/
theorem find?_map_replaceById (user_id path_id : Int)
    (es : List PathEnrollment) (e0 e' : PathEnrollment)
    (h : es.find? (fun x => x.user_id == user_id && x.path_id == path_id) =
      some e0)
    (hu : e'.user_id = user_id) (hp : e'.path_id = path_id) :
    (es.map (fun x => if x.id == e0.id then e' else x)).find?
      (fun x => x.user_id == user_id && x.path_id == path_id) = some e' := by
  induction es with
  | nil => simp at h
  | cons a t ih =>
    rw [List.find?_cons] at h
    simp only [List.map_cons, List.find?_cons]
    cases hpa : (a.user_id == user_id && a.path_id == path_id) with
    | true =>
      simp only [hpa] at h
      injection h with h
      subst h
      simp [hu, hp]
    | false =>
      simp only [hpa] at h
      cases hid : (a.id == e0.id) with
      | true => simp [hid, hu, hp]
      | false =>
        rw [if_neg Bool.false_ne_true]
        simp only [hpa]
        exact ih h

/-- C7: for an existing enrollment and an existing (truthy) content id,
`update_path_progress` stamps the enrollment's `last_activity_at` with the
commit time: both the response and the stored row carry the new
timestamp. -/
theorem C7_update_touches_last_activity (db : DB) (path_id user_id cid : Int)
    (progress : ℚ) (now : String)
    (he : (findEnrollment db user_id path_id).isSome = true)
    (hc : (findContent db cid).isSome = true) (h0 : ¬ cid = 0) :
    (∃ r, (update_path_progress db path_id user_id (some cid) progress now).2 =
        .ok r ∧ r.last_activity_at = now) ∧
    (∃ e, findEnrollment
        (update_path_progress db path_id user_id (some cid) progress now).1
        user_id path_id = some e ∧ e.last_activity_at = now) := by
  obtain ⟨e0, he'⟩ := Option.isSome_iff_exists.mp he
  obtain ⟨c, hc'⟩ := Option.isSome_iff_exists.mp hc
  have hpe := List.find?_some he'
  rw [Bool.and_eq_true, beq_iff_eq, beq_iff_eq] at hpe
  constructor
  · simp [update_path_progress, he', h0, hc', progressResponse]
  · simp only [update_path_progress, he', hc', if_neg h0]
    dsimp only [findEnrollment]
    refine ⟨_, find?_map_replaceById user_id path_id db.enrollments e0 _
      he' ?_ ?_, rfl⟩
    · exact hpe.1
    · exact hpe.2

theorem C7_update_touches_last_activity_witness :
    (∃ r, (update_path_progress sampleDB 1 1 (some 2) 40 "t1").2 =
        .ok r ∧ r.last_activity_at = "t1") ∧
    (∃ e, findEnrollment
        (update_path_progress sampleDB 1 1 (some 2) 40 "t1").1 1 1 =
        some e ∧ e.last_activity_at = "t1") :=
  C7_update_touches_last_activity sampleDB 1 1 2 40 "t1"
    (by decide) (by decide) (by decide)

/-- C10 counterexample: the claim says that whenever the mock fallback
fires and a user_id is supplied, `user_progress` is the fixed snapshot.
Supplying `user_id = 0` refutes it: path 999 is absent from the empty
store, the mock fallback fires, yet `user_progress` is null, because the
source tests `if user_id` (truthiness), not presence. -/
theorem C10_zero_user_id_counterexample :
    findPath emptyDB 999 = none ∧
    (get_learning_path emptyDB 999 (some 0)).user_progress = none := by
  exact ⟨by decide, by decide⟩

/-- C10 amended: whenever the mock fallback fires, a supplied non-zero
user_id always yields the same fixed snapshot (overall progress 0, empty
content progress, constant enrolled_at) regardless of the user's actual
enrollments, and an absent or zero user_id yields null. -/
theorem C10_mock_user_progress_fixed (db : DB) (path_id : Int)
    (user_id : Option Int) (h : findPath db path_id = none) :
    (∀ uid, user_id = some uid → ¬ uid = 0 →
      (get_learning_path db path_id user_id).user_progress =
        some { overall_progress := 0, content_progress := []
             , enrolled_at := "2025-03-28T20:00:00" }) ∧
    (user_id = none ∨ user_id = some 0 →
      (get_learning_path db path_id user_id).user_progress = none) := by
  have hm : get_learning_path db path_id user_id = mockPath path_id user_id := by
    simp [get_learning_path, h]
  constructor
  · intro uid huid h0
    subst huid
    rw [hm]
    simp [mockPath, h0]
  · intro huid
    rcases huid with huid | huid <;> subst huid <;> rw [hm] <;> rfl

theorem C10_mock_user_progress_fixed_witness :
    (get_learning_path emptyDB 999 (some 5)).user_progress =
      some { overall_progress := 0, content_progress := []
           , enrolled_at := "2025-03-28T20:00:00" } :=
  (C10_mock_user_progress_fixed emptyDB 999 (some 5) (by decide)).1 5 rfl
    (by decide)
